import Mathlib

/-!
Shallow embedding of the generated MediMate Malaysia Python SDK client
(`medimate_malaysia`), as emitted by `scripts/sdk-generation/generate-python-sdk.py`.

The embedding covers the client's request/response/error contract:
construction-time API-key validation (`validate_api_key`, `MediMateMalaysia.__init__`),
default request headers (`_get_default_headers`), the synchronous and asynchronous
request operations (`_make_request`, `_make_async_request`), the exception taxonomy
(`MediMateError`, `AuthenticationError`, `RateLimitError`, `ValidationError`),
and a representative service operation (`PatientService.get_patient`).

Machine-level conventions: JSON values are a Lean inductive; a parsed HTTP response
is a record of status code, header list, reason phrase, request URL and parsed JSON
body; Python exceptions that escape the client untyped (for example `ValueError`
from `int(...)`) are a separate `Outcome.pyError` constructor.
-/

namespace MediMateSDK

/-- JSON values, the shape of request and response bodies. -/
inductive Json where
  | null : Json
  | bool (b : Bool) : Json
  | num (n : Int) : Json
  | str (s : String) : Json
  | arr (elems : List Json) : Json
  | obj (fields : List (String × Json)) : Json
deriving Repr

/-- Field lookup in a JSON object member list: Python `d[k]` / `d.get(k)`
on the decoded dictionary (first match wins, as keys are unique). -/
def lookupField : List (String × Json) → String → Option Json
  | [], _ => none
  | (k', v) :: rest, k => if k' = k then some v else lookupField rest k

/-- Python `response_dict["data"]`-style access: `some` on a JSON object that
has the key, `none` otherwise (a `KeyError` in Python). -/
def Json.getField : Json → String → Option Json
  | Json.obj fields, k => lookupField fields k
  | _, _ => none

/-- The Python exception classes of the SDK's taxonomy
(`exceptions.py`): the base `MediMateError` and its three subclasses. -/
inductive ErrClass where
  | base : ErrClass
  | authentication : ErrClass
  | rateLimit : ErrClass
  | validation : ErrClass
deriving Repr, DecidableEq

/-- A raised `MediMateError` (or subclass) value: the Python class of the
exception plus the attributes set by `MediMateError.__init__` and
`RateLimitError.__init__` (`cultural_message` and `details` are `None`
on every path the client itself raises, so they are omitted). -/
structure MediMateError where
  errClass : ErrClass
  message : String
  code : String
  status_code : Option Nat
  retry_after : Option Int
deriving Repr, DecidableEq

/-- `MediMateError(message, code)` with the remaining constructor
arguments left at their `None` defaults. -/
def mkMediMateError (message code : String) : MediMateError :=
  { errClass := ErrClass.base, message := message, code := code,
    status_code := none, retry_after := none }

/-- `AuthenticationError(message)`: code `AUTHENTICATION_ERROR`, status 401. -/
def mkAuthenticationError (message : String) : MediMateError :=
  { errClass := ErrClass.authentication, message := message,
    code := "AUTHENTICATION_ERROR", status_code := some 401, retry_after := none }

/-- `RateLimitError(message, retry_after)`: code `RATE_LIMIT_ERROR`, status 429. -/
def mkRateLimitError (message : String) (retry_after : Int) : MediMateError :=
  { errClass := ErrClass.rateLimit, message := message,
    code := "RATE_LIMIT_ERROR", status_code := some 429, retry_after := some retry_after }

/-- One HTTP response as seen by `_make_request` / `_make_async_request`
after the transport delivered it: final status code, response headers,
reason phrase, the request URL, and the JSON decoding of the body. -/
structure HttpResponse where
  status : Nat
  headers : List (String × String)
  reason : String
  url : String
  body : Json

/-- `response.headers.get(k)`: lookup in the response-header list. -/
def headerGet : List (String × String) → String → Option String
  | [], _ => none
  | (k', v) :: rest, k => if k' = k then some v else headerGet rest k

/-- Leading- and trailing-whitespace removal, as Python `int(...)`
applies to its string argument before parsing. -/
def pyStrip (cs : List Char) : List Char :=
  ((cs.dropWhile Char.isWhitespace).reverse.dropWhile Char.isWhitespace).reverse

/-- A non-empty all-digit character sequence. -/
def isDigits (cs : List Char) : Bool :=
  !cs.isEmpty && cs.all Char.isDigit

/-- Decimal value of a digit sequence. -/
def digitsToNat (cs : List Char) : Nat :=
  cs.foldl (fun acc c => 10 * acc + (c.toNat - 48)) 0

/-- Integer parsing on the stripped characters: an optional sign
followed by at least one digit. -/
def pyIntOfChars : List Char → Option Int
  | '-' :: rest => if isDigits rest then some (-(digitsToNat rest : Int)) else none
  | '+' :: rest => if isDigits rest then some (digitsToNat rest : Int) else none
  | cs => if isDigits cs then some (digitsToNat cs : Int) else none

/-- Python `int(s)` on a string: `some` the parsed integer,
`none` when `int` would raise `ValueError`. -/
def pyInt (s : String) : Option Int :=
  pyIntOfChars (pyStrip s.toList)

/-- `int(response.headers.get("Retry-After", 60))`: the default `60` is
already an `int`; a present header value goes through `int(...)`, which
raises `ValueError` (here `none`) on a non-integer string. -/
def retryAfterOf (headers : List (String × String)) : Option Int :=
  match headerGet headers "Retry-After" with
  | none => some 60
  | some s => pyInt s

/-- The outcome of one call: the parsed JSON return value, a raised
`MediMateError` (or subclass), or a Python exception that escapes the
client untyped (for example `ValueError`). -/
inductive Outcome where
  | success (v : Json) : Outcome
  | error (e : MediMateError) : Outcome
  | pyError (description : String) : Outcome
deriving Repr

/-- The `code` attribute of the raised error, when the outcome is a
raised `MediMateError`. -/
def Outcome.errCode : Outcome → Option String
  | Outcome.error e => some e.code
  | _ => none

/-- The `status_code` attribute of the raised error, when the outcome is
a raised `MediMateError`. -/
def Outcome.errStatusCode : Outcome → Option (Option Nat)
  | Outcome.error e => some e.status_code
  | _ => none

/-- Whether the call raised a `MediMateError` (or subclass). -/
def Outcome.isTypedError : Outcome → Bool
  | Outcome.error _ => true
  | _ => false

/-- Whether the call returned a value. -/
def Outcome.isSuccess : Outcome → Bool
  | Outcome.success _ => true
  | _ => false

/-- `str(e)` of the `requests.HTTPError` raised by
`Response.raise_for_status` for a status in 400..599. -/
def httpErrorStr (resp : HttpResponse) : String :=
  if resp.status < 500 then
    toString resp.status ++ " Client Error: " ++ resp.reason ++ " for url: " ++ resp.url
  else
    toString resp.status ++ " Server Error: " ++ resp.reason ++ " for url: " ++ resp.url

/-- `str(e)` of the `aiohttp.ClientResponseError` raised by
`ClientResponse.raise_for_status` for a status of at least 400. -/
def aiohttpErrorStr (resp : HttpResponse) : String :=
  toString resp.status ++ ", message=" ++ resp.reason ++ ", url=" ++ resp.url

/-- `MediMateMalaysia._make_request`, given the response the transport
delivered. In the Python source the whole body sits in a
`try/except requests.RequestException` block: the `RateLimitError` and
`AuthenticationError` raised inside it are `MediMateError` subclasses,
not `RequestException`s, so they propagate unchanged; the `HTTPError`
from `raise_for_status` (raised exactly for 400 <= status < 600) is a
`RequestException` and is re-raised as
`MediMateError("Request failed: " + str(e), "REQUEST_ERROR")`; the
`ValueError` from `int(...)` on a non-integer `Retry-After` header is
neither, and escapes untyped. Any other status falls through to
`return response.json()`. -/
def _make_request (resp : HttpResponse) : Outcome :=
  if resp.status = 429 then
    match retryAfterOf resp.headers with
    | some retry_after =>
        Outcome.error (mkRateLimitError
          ("Rate limited. Retry after " ++ toString retry_after ++ " seconds") retry_after)
    | none => Outcome.pyError "ValueError: invalid literal for int() with base 10"
  else if resp.status = 401 then
    Outcome.error (mkAuthenticationError "Invalid API key or authentication failed")
  else if 400 ≤ resp.status ∧ resp.status < 600 then
    Outcome.error (mkMediMateError ("Request failed: " ++ httpErrorStr resp) "REQUEST_ERROR")
  else
    Outcome.success resp.body

/-- `MediMateMalaysia._make_async_request`, given the delivered response.
Identical branch structure to `_make_request`, except that aiohttp's
`raise_for_status` raises for every status of at least 400, and the
`except aiohttp.ClientError` handler wraps it as
`MediMateError("Async request failed: " + str(e), "ASYNC_REQUEST_ERROR")`. -/
def _make_async_request (resp : HttpResponse) : Outcome :=
  if resp.status = 429 then
    match retryAfterOf resp.headers with
    | some retry_after =>
        Outcome.error (mkRateLimitError
          ("Rate limited. Retry after " ++ toString retry_after ++ " seconds") retry_after)
    | none => Outcome.pyError "ValueError: invalid literal for int() with base 10"
  else if resp.status = 401 then
    Outcome.error (mkAuthenticationError "Invalid API key or authentication failed")
  else if 400 ≤ resp.status then
    Outcome.error (mkMediMateError ("Async request failed: " ++ aiohttpErrorStr resp)
      "ASYNC_REQUEST_ERROR")
  else
    Outcome.success resp.body

/-- `models.MalaysianState`: the state-code enumeration. -/
inductive MalaysianState where
  | KUALA_LUMPUR | SELANGOR | JOHOR | PENANG | PERAK | PAHANG
  | TERENGGANU | KELANTAN | PERLIS | KEDAH | MELAKA | NEGERI_SEMBILAN
  | SARAWAK | SABAH | LABUAN | PUTRAJAYA
deriving Repr, DecidableEq

/-- The string value of each `MalaysianState` enum member. -/
def MalaysianState.code : MalaysianState → String
  | KUALA_LUMPUR => "KUL" | SELANGOR => "SGR" | JOHOR => "JHR" | PENANG => "PNG"
  | PERAK => "PRK" | PAHANG => "PHG" | TERENGGANU => "TRG" | KELANTAN => "KTN"
  | PERLIS => "PLS" | KEDAH => "KDH" | MELAKA => "MLK" | NEGERI_SEMBILAN => "NSN"
  | SARAWAK => "SWK" | SABAH => "SBH" | LABUAN => "LBN" | PUTRAJAYA => "PJY"

/-- `models.SupportedLanguage`: the supported-language enumeration. -/
inductive SupportedLanguage where
  | MALAY | ENGLISH | CHINESE | TAMIL
deriving Repr, DecidableEq

/-- The string value of each `SupportedLanguage` enum member. -/
def SupportedLanguage.code : SupportedLanguage → String
  | MALAY => "ms" | ENGLISH => "en" | CHINESE => "zh" | TAMIL => "ta"

/-- `models.CulturalContext`: the cultural-context option bundle. -/
structure CulturalContext where
  malaysian_state : Option MalaysianState
  preferred_language : Option SupportedLanguage
  prayer_time_aware : Bool
  halal_requirements : Bool
  ramadan_adjustments : Bool
deriving Repr, DecidableEq

/-- `CulturalContext()`: the pydantic field defaults
(`malaysian_state=None`, `preferred_language=ENGLISH`,
`prayer_time_aware=True`, `halal_requirements=False`,
`ramadan_adjustments=False`). -/
def CulturalContext.default : CulturalContext :=
  { malaysian_state := none, preferred_language := some SupportedLanguage.ENGLISH,
    prayer_time_aware := true, halal_requirements := false, ramadan_adjustments := false }

/-- `models.MediMateConfig` as populated by `MediMateMalaysia.__init__`. -/
structure MediMateConfig where
  api_key : String
  base_url : String
  timeout : Nat
  max_retries : Nat
  debug : Bool
  cultural_context : Option CulturalContext
deriving Repr, DecidableEq

/-- Python `s.startswith(tag)` on the character sequences. -/
def pyStartswith (s tag : String) : Bool :=
  tag.toList.isPrefixOf s.toList

/-- Python `len(s)`: the number of characters. -/
def pyLen (s : String) : Nat :=
  s.toList.length

/-- `utils.validate_api_key`:
`bool(api_key and api_key.startswith('mk_') and len(api_key) > 12)`
(an empty string is falsy in Python). -/
def validate_api_key (api_key : String) : Bool :=
  !api_key.toList.isEmpty && pyStartswith api_key "mk_" && decide (pyLen api_key > 12)

/-- The `MediMateError` raised by `MediMateMalaysia.__init__` on an
invalid key. -/
def invalidApiKeyError : MediMateError :=
  mkMediMateError "Invalid API key format. Expected format: mk_live_... or mk_test_..."
    "INVALID_API_KEY"

/-- `MediMateMalaysia.__init__`, restricted to its configuration effect:
raises `MediMateError(..., "INVALID_API_KEY")` when `validate_api_key`
fails, otherwise stores a `MediMateConfig` whose `cultural_context` is
`cultural_context or CulturalContext()` (pydantic models are truthy, so
a supplied context is kept and only `None` is replaced by the default).
No network traffic happens here. -/
def MediMateMalaysia_init (api_key : String) (base_url : String) (timeout : Nat)
    (max_retries : Nat) (debug : Bool) (cultural_context : Option CulturalContext) :
    Except MediMateError MediMateConfig :=
  if validate_api_key api_key = false then
    Except.error invalidApiKeyError
  else
    Except.ok
      { api_key := api_key, base_url := base_url, timeout := timeout,
        max_retries := max_retries, debug := debug,
        cultural_context := some (cultural_context.getD CulturalContext.default) }

/-- `SDK_CONFIG["version"]` of the generator. -/
def sdkVersion : String := "1.2.0"

/-- `MediMateMalaysia._get_default_headers`: the base header dictionary,
extended (in insertion order) with the cultural-context headers; each
cultural header is added only when its field is truthy in Python
(a set enum member for the state and language, `True` for the flags). -/
def _get_default_headers (config : MediMateConfig) : List (String × String) :=
  let headers :=
    [("Authorization", "Bearer " ++ config.api_key),
     ("Content-Type", "application/json"),
     ("User-Agent", "MediMate-Malaysia-SDK-Python/" ++ sdkVersion),
     ("X-SDK-Language", "python"),
     ("X-Cultural-Context", "Malaysian Healthcare")]
  match config.cultural_context with
  | none => headers
  | some cc =>
    let h1 := match cc.malaysian_state with
      | some st => headers ++ [("X-Malaysian-State", st.code)]
      | none => headers
    let h2 := match cc.preferred_language with
      | some lang => h1 ++ [("X-Preferred-Language", lang.code)]
      | none => h1
    let h3 := if cc.prayer_time_aware then h2 ++ [("X-Prayer-Time-Aware", "true")] else h2
    if cc.halal_requirements then h3 ++ [("X-Halal-Requirements", "true")] else h3

/-- `PatientService.get_patient`, given the response the transport
delivered to the underlying `_make_request` call: on a returned
envelope it evaluates `response["data"]` (a missing key is a Python
`KeyError`); a raised exception propagates unchanged. -/
def PatientService_get_patient (resp : HttpResponse) : Outcome :=
  match _make_request resp with
  | Outcome.success envelope =>
    match envelope.getField "data" with
    | some d => Outcome.success d
    | none => Outcome.pyError "KeyError: data"
  | o => o

/-- `PatientService.get_patient_async`: the same post-processing over
`_make_async_request`. -/
def PatientService_get_patient_async (resp : HttpResponse) : Outcome :=
  match _make_async_request resp with
  | Outcome.success envelope =>
    match envelope.getField "data" with
    | some d => Outcome.success d
    | none => Outcome.pyError "KeyError: data"
  | o => o

/-- Two response-header lists that agree at every key other than the
contextual-hint headers `X-Prayer-Time` and `X-Cultural-Event`. -/
def agreeOffHintHeaders (h1 h2 : List (String × String)) : Prop :=
  ∀ k, k ≠ "X-Prayer-Time" → k ≠ "X-Cultural-Event" → headerGet h1 k = headerGet h2 k

/-- A 304 Not Modified response: a non-2xx status that is neither 401,
429 nor in the 400..599 range checked by `raise_for_status`. -/
def c1resp304 : HttpResponse :=
  { status := 304, headers := [], reason := "Not Modified",
    url := "https://api.medimate.my/v1/health", body := Json.obj [] }

/-- A 401 response. -/
def c1resp401 : HttpResponse :=
  { status := 401, headers := [], reason := "Unauthorized",
    url := "https://api.medimate.my/v1/health", body := Json.obj [] }

/-- A 429 response with an integer `Retry-After` header. -/
def c3resp429 : HttpResponse :=
  { status := 429, headers := [("Retry-After", "120")], reason := "Too Many Requests",
    url := "https://api.medimate.my/v1/health", body := Json.obj [] }

/-- A 429 response with no `Retry-After` header. -/
def c3resp429NoHeader : HttpResponse :=
  { status := 429, headers := [], reason := "Too Many Requests",
    url := "https://api.medimate.my/v1/health", body := Json.obj [] }

/-- A configuration carrying the cultural context of claim C4:
region KUL, language ms, prayer-time aware, no halal requirements. -/
def c4config : MediMateConfig :=
  { api_key := "mk_live_abcdef", base_url := "https://api.medimate.my/v1",
    timeout := 30, max_retries := 3, debug := false,
    cultural_context := some
      { malaysian_state := some MalaysianState.KUALA_LUMPUR,
        preferred_language := some SupportedLanguage.MALAY,
        prayer_time_aware := true, halal_requirements := false,
        ramadan_adjustments := false } }

/-- A 500 response, on which the sync and async generic-error branches differ. -/
def c5resp500 : HttpResponse :=
  { status := 500, headers := [], reason := "Internal Server Error",
    url := "https://api.medimate.my/v1/patients/123", body := Json.null }

/-- A 200 response, on which the sync and async paths agree. -/
def c5resp200 : HttpResponse :=
  { status := 200, headers := [], reason := "OK",
    url := "https://api.medimate.my/v1/health", body := Json.obj [("ok", Json.bool true)] }

/-- A 429 response whose `Retry-After` header is not an integer:
`int("abc")` raises `ValueError` in both request operations. -/
def c6resp429bad : HttpResponse :=
  { status := 429, headers := [("Retry-After", "abc")], reason := "Too Many Requests",
    url := "https://api.medimate.my/v1/health", body := Json.obj [] }

/-- The success envelope of claim C7. -/
def c7envelope : Json :=
  Json.obj [("success", Json.bool true), ("data", Json.obj [("x", Json.num 1)])]

/-- A 200 response carrying the claim-C7 envelope. -/
def c7resp200 : HttpResponse :=
  { status := 200, headers := [], reason := "OK",
    url := "https://api.medimate.my/v1/patients/123", body := c7envelope }

/-- A 500 response with a JSON body, for claim C8. -/
def c8resp500 : HttpResponse :=
  { status := 500, headers := [], reason := "Internal Server Error",
    url := "https://api.medimate.my/v1/health", body := Json.str "boom" }

/-- The error `_make_request` raises on `c8resp500`. -/
def c8err : MediMateError :=
  mkMediMateError
    "Request failed: 500 Server Error: Internal Server Error for url: https://api.medimate.my/v1/health"
    "REQUEST_ERROR"

/-- A 200 response carrying both contextual-hint headers. -/
def c9respHint : HttpResponse :=
  { status := 200,
    headers := [("X-Prayer-Time", "Maghrib"), ("X-Cultural-Event", "Hari Raya")],
    reason := "OK", url := "https://api.medimate.my/v1/health",
    body := Json.obj [("success", Json.bool true)] }

/-- The same response with the contextual-hint headers removed. -/
def c9respPlain : HttpResponse :=
  { status := 200, headers := [], reason := "OK",
    url := "https://api.medimate.my/v1/health",
    body := Json.obj [("success", Json.bool true)] }

/-- The configuration produced by constructing the client with a valid
key and no cultural context. -/
def c10config : MediMateConfig :=
  { api_key := "mk_live_abcdef", base_url := "https://api.medimate.my/v1",
    timeout := 30, max_retries := 3, debug := false,
    cultural_context := some CulturalContext.default }

/-! Theorems. -/

/-- Claim C1, counterexample: a 304 Not Modified response is not a 2xx
status, yet neither request operation raises an error — both return the
parsed body, because `raise_for_status` only raises for statuses in
400..599 (sync) or at least 400 (async). The claim's "any other non-2xx
status raises the generic request error" is therefore false at 304. -/
theorem C1_counterexample :
    ¬ (200 ≤ c1resp304.status ∧ c1resp304.status < 300) ∧
    c1resp304.status ≠ 401 ∧ c1resp304.status ≠ 429 ∧
    _make_request c1resp304 = Outcome.success (Json.obj []) ∧
    _make_async_request c1resp304 = Outcome.success (Json.obj []) ∧
    (_make_request c1resp304).isTypedError = false ∧
    (_make_async_request c1resp304).isTypedError = false :=
  ⟨by decide, by decide, by decide, rfl, rfl, rfl, rfl⟩

/-- Claim C1 (amended): status dispatch of both request operations.
Any status below 400 (so every 2xx, and also 1xx/3xx) yields the parsed
body; 401 raises `AuthenticationError`; 429 raises `RateLimitError`
when the `Retry-After` value parses; any other status in 400..599
raises the generic `MediMateError` (code `REQUEST_ERROR` sync,
`ASYNC_REQUEST_ERROR` async); a status of at least 600 is returned as a
success by the sync path but raised by the async path. -/
theorem C1_status_dispatch (resp : HttpResponse) :
    (resp.status < 400 →
      _make_request resp = Outcome.success resp.body ∧
      _make_async_request resp = Outcome.success resp.body) ∧
    (resp.status = 401 →
      _make_request resp =
        Outcome.error (mkAuthenticationError "Invalid API key or authentication failed") ∧
      _make_async_request resp =
        Outcome.error (mkAuthenticationError "Invalid API key or authentication failed")) ∧
    (∀ n, resp.status = 429 → retryAfterOf resp.headers = some n →
      _make_request resp =
        Outcome.error (mkRateLimitError
          ("Rate limited. Retry after " ++ toString n ++ " seconds") n) ∧
      _make_async_request resp =
        Outcome.error (mkRateLimitError
          ("Rate limited. Retry after " ++ toString n ++ " seconds") n)) ∧
    (400 ≤ resp.status → resp.status < 600 → resp.status ≠ 401 → resp.status ≠ 429 →
      _make_request resp =
        Outcome.error (mkMediMateError ("Request failed: " ++ httpErrorStr resp)
          "REQUEST_ERROR") ∧
      _make_async_request resp =
        Outcome.error (mkMediMateError ("Async request failed: " ++ aiohttpErrorStr resp)
          "ASYNC_REQUEST_ERROR")) ∧
    (600 ≤ resp.status →
      _make_request resp = Outcome.success resp.body ∧
      _make_async_request resp =
        Outcome.error (mkMediMateError ("Async request failed: " ++ aiohttpErrorStr resp)
          "ASYNC_REQUEST_ERROR")) := by
  refine ⟨?_, ?_, ?_, ?_, ?_⟩
  · intro h
    unfold _make_request _make_async_request
    rw [if_neg (by omega : ¬ resp.status = 429), if_neg (by omega : ¬ resp.status = 401),
      if_neg (by omega : ¬ (400 ≤ resp.status ∧ resp.status < 600)),
      if_neg (by omega : ¬ resp.status = 429), if_neg (by omega : ¬ resp.status = 401),
      if_neg (by omega : ¬ 400 ≤ resp.status)]
    exact ⟨rfl, rfl⟩
  · intro h
    unfold _make_request _make_async_request
    rw [if_neg (by omega : ¬ resp.status = 429), if_pos h,
      if_neg (by omega : ¬ resp.status = 429), if_pos h]
    exact ⟨rfl, rfl⟩
  · intro n h hra
    unfold _make_request _make_async_request
    rw [if_pos h, if_pos h, hra]
    exact ⟨rfl, rfl⟩
  · intro h1 h2 h3 h4
    unfold _make_request _make_async_request
    rw [if_neg h4, if_neg h3, if_pos ⟨h1, h2⟩, if_neg h4, if_neg h3, if_pos h1]
    exact ⟨rfl, rfl⟩
  · intro h
    unfold _make_request _make_async_request
    rw [if_neg (by omega : ¬ resp.status = 429), if_neg (by omega : ¬ resp.status = 401),
      if_neg (by omega : ¬ (400 ≤ resp.status ∧ resp.status < 600)),
      if_neg (by omega : ¬ resp.status = 429), if_neg (by omega : ¬ resp.status = 401),
      if_pos (by omega : 400 ≤ resp.status)]
    exact ⟨rfl, rfl⟩

/-- Claim C1 witness: the dispatch theorem applied to the concrete 401
response and to the concrete 429 response with `Retry-After: 120`. -/
theorem C1_status_dispatch_witness :
    _make_request c1resp401 =
      Outcome.error (mkAuthenticationError "Invalid API key or authentication failed") ∧
    _make_request c3resp429 =
      Outcome.error (mkRateLimitError
        ("Rate limited. Retry after " ++ toString (120 : Int) ++ " seconds") 120) :=
  ⟨((C1_status_dispatch c1resp401).2.1 rfl).1,
   ((C1_status_dispatch c3resp429).2.2.1 120 rfl (by decide)).1⟩

/-- Claim C2 (confirmed): `validate_api_key` accepts exactly the strings
with the `mk_` tag and more than 12 characters; `MediMateMalaysia.__init__`
stores the configuration for exactly those keys and raises the local
`MediMateError` with code `INVALID_API_KEY` for every other string,
before any network call (the embedded constructor performs none). -/
theorem C2_api_key_validation (api_key base_url : String) (timeout max_retries : Nat)
    (debug : Bool) (cultural_context : Option CulturalContext) :
    (validate_api_key api_key = true ↔
      (pyStartswith api_key "mk_" = true ∧ pyLen api_key > 12)) ∧
    (pyStartswith api_key "mk_" = true ∧ pyLen api_key > 12 →
      MediMateMalaysia_init api_key base_url timeout max_retries debug cultural_context =
        Except.ok
          { api_key := api_key, base_url := base_url, timeout := timeout,
            max_retries := max_retries, debug := debug,
            cultural_context := some (cultural_context.getD CulturalContext.default) }) ∧
    (¬ (pyStartswith api_key "mk_" = true ∧ pyLen api_key > 12) →
      MediMateMalaysia_init api_key base_url timeout max_retries debug cultural_context =
        Except.error invalidApiKeyError ∧
      invalidApiKeyError.code = "INVALID_API_KEY") := by
  have hiff : validate_api_key api_key = true ↔
      (pyStartswith api_key "mk_" = true ∧ pyLen api_key > 12) := by
    unfold validate_api_key
    constructor
    · intro h
      simp only [Bool.and_eq_true, Bool.not_eq_true', decide_eq_true_eq] at h
      exact ⟨h.1.2, h.2⟩
    · rintro ⟨h1, h2⟩
      have hne : api_key.toList.isEmpty = false := by
        cases hl : api_key.toList with
        | nil => exfalso; rw [pyLen, hl] at h2; exact absurd h2 (by simp)
        | cons c cs => simp
      simp only [Bool.and_eq_true, Bool.not_eq_true', decide_eq_true_eq]
      exact ⟨⟨hne, h1⟩, h2⟩
  refine ⟨hiff, ?_, ?_⟩
  · intro h
    have hv : validate_api_key api_key = true := hiff.mpr h
    unfold MediMateMalaysia_init
    rw [if_neg (by rw [hv]; exact fun hfalse => Bool.noConfusion hfalse)]
  · intro h
    have hv : validate_api_key api_key = false := by
      cases hb : validate_api_key api_key with
      | false => rfl
      | true => exact absurd (hiff.mp hb) h
    unfold MediMateMalaysia_init
    rw [if_pos hv]
    exact ⟨rfl, rfl⟩

/-- Claim C2 witness: the construction theorem applied to the valid key
`mk_live_abcdef` and to the invalid key `sk_invalid_key_123`. -/
theorem C2_api_key_validation_witness :
    MediMateMalaysia_init "mk_live_abcdef" "https://api.medimate.my/v1" 30 3 false none =
      Except.ok c10config ∧
    MediMateMalaysia_init "sk_invalid_key_123" "https://api.medimate.my/v1" 30 3 false none =
      Except.error invalidApiKeyError :=
  ⟨(C2_api_key_validation "mk_live_abcdef" "https://api.medimate.my/v1" 30 3 false none).2.1
      (by decide),
   ((C2_api_key_validation "sk_invalid_key_123" "https://api.medimate.my/v1" 30 3 false
      none).2.2 (by decide)).1⟩

/-- Claim C3 (confirmed): on a 429 response, a present `Retry-After`
header that parses as integer `n` produces a `RateLimitError` whose
`retry_after` attribute equals `n`, in both request operations; an
absent header produces `retry_after = 60`. -/
theorem C3_retry_after (resp : HttpResponse) (h429 : resp.status = 429) :
    (∀ s n, headerGet resp.headers "Retry-After" = some s → pyInt s = some n →
      _make_request resp =
        Outcome.error (mkRateLimitError
          ("Rate limited. Retry after " ++ toString n ++ " seconds") n) ∧
      _make_async_request resp =
        Outcome.error (mkRateLimitError
          ("Rate limited. Retry after " ++ toString n ++ " seconds") n) ∧
      (mkRateLimitError ("Rate limited. Retry after " ++ toString n ++ " seconds")
        n).retry_after = some n) ∧
    (headerGet resp.headers "Retry-After" = none →
      _make_request resp =
        Outcome.error (mkRateLimitError
          ("Rate limited. Retry after " ++ toString (60 : Int) ++ " seconds") 60) ∧
      _make_async_request resp =
        Outcome.error (mkRateLimitError
          ("Rate limited. Retry after " ++ toString (60 : Int) ++ " seconds") 60) ∧
      (mkRateLimitError ("Rate limited. Retry after " ++ toString (60 : Int) ++ " seconds")
        60).retry_after = some 60) := by
  constructor
  · intro s n hs hn
    have hra : retryAfterOf resp.headers = some n := by
      unfold retryAfterOf
      rw [hs]
      exact hn
    unfold _make_request _make_async_request
    rw [if_pos h429, if_pos h429, hra]
    exact ⟨rfl, rfl, rfl⟩
  · intro hs
    have hra : retryAfterOf resp.headers = some 60 := by
      unfold retryAfterOf
      rw [hs]
    unfold _make_request _make_async_request
    rw [if_pos h429, if_pos h429, hra]
    exact ⟨rfl, rfl, rfl⟩

/-- Claim C3 witness: the retry-after theorem applied to the 429
response with `Retry-After: 120` and to the one without the header. -/
theorem C3_retry_after_witness :
    _make_request c3resp429 =
      Outcome.error (mkRateLimitError
        ("Rate limited. Retry after " ++ toString (120 : Int) ++ " seconds") 120) ∧
    _make_request c3resp429NoHeader =
      Outcome.error (mkRateLimitError
        ("Rate limited. Retry after " ++ toString (60 : Int) ++ " seconds") 60) :=
  ⟨((C3_retry_after c3resp429 rfl).1 "120" 120 rfl (by decide)).1,
   ((C3_retry_after c3resp429NoHeader rfl).2 rfl).1⟩

/-- Claim C4 (confirmed): with cultural context
`{region KUL, language ms, prayer_time_aware true}` and
`halal_requirements` unset, the default header map carries
`X-Malaysian-State: KUL`, `X-Preferred-Language: ms`,
`X-Prayer-Time-Aware: true`, and no `X-Halal-Requirements` entry at all
(the flag header is emitted only when the flag is `True`). -/
theorem C4_cultural_headers (config : MediMateConfig) (ram : Bool)
    (h : config.cultural_context = some
      { malaysian_state := some MalaysianState.KUALA_LUMPUR,
        preferred_language := some SupportedLanguage.MALAY,
        prayer_time_aware := true, halal_requirements := false,
        ramadan_adjustments := ram }) :
    headerGet (_get_default_headers config) "X-Malaysian-State" = some "KUL" ∧
    headerGet (_get_default_headers config) "X-Preferred-Language" = some "ms" ∧
    headerGet (_get_default_headers config) "X-Prayer-Time-Aware" = some "true" ∧
    headerGet (_get_default_headers config) "X-Halal-Requirements" = none := by
  unfold _get_default_headers
  rw [h]
  simp [headerGet, MalaysianState.code, SupportedLanguage.code]

/-- Claim C4 witness: the header theorem applied to the concrete
configuration `c4config`. -/
theorem C4_cultural_headers_witness :
    headerGet (_get_default_headers c4config) "X-Malaysian-State" = some "KUL" ∧
    headerGet (_get_default_headers c4config) "X-Preferred-Language" = some "ms" ∧
    headerGet (_get_default_headers c4config) "X-Prayer-Time-Aware" = some "true" ∧
    headerGet (_get_default_headers c4config) "X-Halal-Requirements" = none :=
  C4_cultural_headers c4config false rfl

/-- Claim C5, counterexample: on a 500 response the two request
operations do not produce the same error — the sync path raises
`MediMateError` with code `REQUEST_ERROR` and message prefix
"Request failed: ", the async path code `ASYNC_REQUEST_ERROR` and
prefix "Async request failed: ". -/
theorem C5_counterexample :
    (_make_request c5resp500).errCode = some "REQUEST_ERROR" ∧
    (_make_async_request c5resp500).errCode = some "ASYNC_REQUEST_ERROR" ∧
    _make_request c5resp500 ≠ _make_async_request c5resp500 :=
  ⟨rfl, rfl, fun h => by
    have hc := congrArg Outcome.errCode h
    rw [show (_make_request c5resp500).errCode = some "REQUEST_ERROR" from rfl,
      show (_make_async_request c5resp500).errCode = some "ASYNC_REQUEST_ERROR" from rfl] at hc
    exact absurd hc (by decide)⟩

/-- Claim C5 (amended): the sync and async request operations produce
identical outcomes for every response with status below 400 or equal to
401 or 429; on any other status in 400..599 both raise a `MediMateError`
of the base class, but with different codes (`REQUEST_ERROR` vs
`ASYNC_REQUEST_ERROR`) and different message prefixes. -/
theorem C5_sync_async_agreement (resp : HttpResponse) :
    (resp.status < 400 ∨ resp.status = 401 ∨ resp.status = 429 →
      _make_request resp = _make_async_request resp) ∧
    (400 ≤ resp.status → resp.status < 600 → resp.status ≠ 401 → resp.status ≠ 429 →
      (_make_request resp).errCode = some "REQUEST_ERROR" ∧
      (_make_async_request resp).errCode = some "ASYNC_REQUEST_ERROR" ∧
      (_make_request resp).isTypedError = true ∧
      (_make_async_request resp).isTypedError = true) := by
  constructor
  · intro h
    rcases h with h | h | h
    · unfold _make_request _make_async_request
      rw [if_neg (by omega : ¬ resp.status = 429), if_neg (by omega : ¬ resp.status = 401),
        if_neg (by omega : ¬ (400 ≤ resp.status ∧ resp.status < 600)),
        if_neg (by omega : ¬ resp.status = 429), if_neg (by omega : ¬ resp.status = 401),
        if_neg (by omega : ¬ 400 ≤ resp.status)]
    · unfold _make_request _make_async_request
      rw [if_neg (by omega : ¬ resp.status = 429), if_pos h,
        if_neg (by omega : ¬ resp.status = 429), if_pos h]
    · unfold _make_request _make_async_request
      rw [if_pos h, if_pos h]
  · intro h1 h2 h3 h4
    unfold _make_request _make_async_request
    rw [if_neg h4, if_neg h3, if_pos ⟨h1, h2⟩, if_neg h4, if_neg h3, if_pos h1]
    exact ⟨rfl, rfl, rfl, rfl⟩

/-- Claim C5 witness: the agreement theorem applied to the concrete 200
response and the divergence conjunct to the concrete 500 response. -/
theorem C5_sync_async_agreement_witness :
    _make_request c5resp200 = _make_async_request c5resp200 ∧
    (_make_request c5resp500).errCode = some "REQUEST_ERROR" ∧
    (_make_async_request c5resp500).errCode = some "ASYNC_REQUEST_ERROR" :=
  ⟨(C5_sync_async_agreement c5resp200).1 (Or.inl (by decide)),
   ((C5_sync_async_agreement c5resp500).2 (by decide) (by decide) (by decide) (by decide)).1,
   ((C5_sync_async_agreement c5resp500).2 (by decide) (by decide) (by decide) (by decide)).2.1⟩

/-- Claim C6 (code bug): on a 429 response whose `Retry-After` header is
the non-integer string "abc", `int(response.headers.get("Retry-After", 60))`
raises `ValueError` inside both request operations; the `ValueError` is
neither a `requests.RequestException` nor an `aiohttp.ClientError`, so
it escapes the handler untyped — the call ends with neither a typed
success nor an error of the SDK taxonomy, contradicting the invariant. -/
theorem C6_untyped_value_error :
    _make_request c6resp429bad =
      Outcome.pyError "ValueError: invalid literal for int() with base 10" ∧
    _make_async_request c6resp429bad =
      Outcome.pyError "ValueError: invalid literal for int() with base 10" ∧
    (_make_request c6resp429bad).isTypedError = false ∧
    (_make_request c6resp429bad).isSuccess = false ∧
    (_make_async_request c6resp429bad).isTypedError = false ∧
    (_make_async_request c6resp429bad).isSuccess = false :=
  ⟨rfl, rfl, rfl, rfl, rfl, rfl⟩

/-- Claim C7 (confirmed): a 200 response whose body is the envelope
with `success: true` and `data: x=1` makes the request operations
return the whole parsed envelope, and makes
`PatientService.get_patient` (and its async twin) return the
envelope's `data` member, the object `x=1`. -/
theorem C7_success_envelope (headers : List (String × String)) (reason url : String) :
    _make_request
        { status := 200, headers := headers, reason := reason, url := url,
          body := c7envelope } = Outcome.success c7envelope ∧
    _make_async_request
        { status := 200, headers := headers, reason := reason, url := url,
          body := c7envelope } = Outcome.success c7envelope ∧
    PatientService_get_patient
        { status := 200, headers := headers, reason := reason, url := url,
          body := c7envelope } = Outcome.success (Json.obj [("x", Json.num 1)]) ∧
    PatientService_get_patient_async
        { status := 200, headers := headers, reason := reason, url := url,
          body := c7envelope } = Outcome.success (Json.obj [("x", Json.num 1)]) :=
  ⟨rfl, rfl, rfl, rfl⟩

/-- Claim C8, counterexample: on a 500 response the sync request
operation raises `MediMateError("Request failed: " + str(e), "REQUEST_ERROR")`
with no further constructor arguments — its `status_code` attribute is
`None`, not 500, and the response body is not attached to the error
(only the status appears, textually, inside the message). -/
theorem C8_counterexample :
    _make_request c8resp500 = Outcome.error c8err ∧
    c8err.code = "REQUEST_ERROR" ∧
    c8err.status_code = none ∧
    (_make_request c8resp500).errStatusCode = some none ∧
    (_make_request c8resp500).errStatusCode ≠ some (some 500) :=
  ⟨rfl, rfl, rfl, rfl, by decide⟩

/-- Claim C8 (amended): every response with a status in 400..599 other
than 401 and 429 makes the sync request operation fail with a base-class
`MediMateError` with code `REQUEST_ERROR` whose message is
"Request failed: " followed by the `HTTPError` text (which names the
numeric status and the URL); the error's `status_code` and `retry_after`
attributes are `None` and the response body is not carried. -/
theorem C8_generic_error (resp : HttpResponse) (h1 : 400 ≤ resp.status)
    (h2 : resp.status < 600) (h3 : resp.status ≠ 401) (h4 : resp.status ≠ 429) :
    _make_request resp =
      Outcome.error (mkMediMateError ("Request failed: " ++ httpErrorStr resp)
        "REQUEST_ERROR") ∧
    (mkMediMateError ("Request failed: " ++ httpErrorStr resp) "REQUEST_ERROR").errClass =
      ErrClass.base ∧
    (mkMediMateError ("Request failed: " ++ httpErrorStr resp) "REQUEST_ERROR").status_code =
      none ∧
    (mkMediMateError ("Request failed: " ++ httpErrorStr resp) "REQUEST_ERROR").retry_after =
      none := by
  unfold _make_request
  rw [if_neg h4, if_neg h3, if_pos ⟨h1, h2⟩]
  exact ⟨rfl, rfl, rfl, rfl⟩

/-- Claim C8 witness: the generic-error theorem applied to the concrete
500 response. -/
theorem C8_generic_error_witness :
    _make_request c8resp500 =
      Outcome.error (mkMediMateError ("Request failed: " ++ httpErrorStr c8resp500)
        "REQUEST_ERROR") :=
  (C8_generic_error c8resp500 (by decide) (by decide) (by decide) (by decide)).1

/-- Claim C9 (confirmed): two responses that differ only in the
presence or value of the `X-Prayer-Time` and `X-Cultural-Event`
response headers produce the same outcome in both request operations —
those headers are only logged and never reach the returned value. -/
theorem C9_hint_headers_noninterference (r1 r2 : HttpResponse)
    (hs : r1.status = r2.status) (hb : r1.body = r2.body)
    (hr : r1.reason = r2.reason) (hu : r1.url = r2.url)
    (hh : agreeOffHintHeaders r1.headers r2.headers) :
    _make_request r1 = _make_request r2 ∧
    _make_async_request r1 = _make_async_request r2 := by
  have hra : headerGet r1.headers "Retry-After" = headerGet r2.headers "Retry-After" :=
    hh "Retry-After" (by decide) (by decide)
  constructor
  · unfold _make_request retryAfterOf httpErrorStr
    rw [hs, hb, hr, hu, hra]
  · unfold _make_async_request retryAfterOf aiohttpErrorStr
    rw [hs, hb, hr, hu, hra]

/-- Claim C9 witness: the noninterference theorem applied to the 200
response with both hint headers and to the same response without them. -/
theorem C9_hint_headers_noninterference_witness :
    _make_request c9respHint = _make_request c9respPlain ∧
    _make_async_request c9respHint = _make_async_request c9respPlain :=
  C9_hint_headers_noninterference c9respHint c9respPlain rfl rfl rfl rfl
    (by
      intro k hk1 hk2
      show headerGet c9respHint.headers k = headerGet c9respPlain.headers k
      unfold c9respHint c9respPlain
      simp only [headerGet]
      rw [if_neg fun h => hk1 h.symm, if_neg fun h => hk2 h.symm])

/-- Claim C10 (confirmed): constructing the client with
`cultural_context=None` substitutes `CulturalContext()` whose defaults
are `preferred_language=ENGLISH` and `prayer_time_aware=True`, so the
default header map still carries `X-Preferred-Language: en` and
`X-Prayer-Time-Aware: true`, while `X-Malaysian-State` and
`X-Halal-Requirements` are absent. -/
theorem C10_default_context_headers (api_key base_url : String)
    (timeout max_retries : Nat) (debug : Bool) (config : MediMateConfig)
    (h : MediMateMalaysia_init api_key base_url timeout max_retries debug none =
      Except.ok config) :
    headerGet (_get_default_headers config) "X-Preferred-Language" = some "en" ∧
    headerGet (_get_default_headers config) "X-Prayer-Time-Aware" = some "true" ∧
    headerGet (_get_default_headers config) "X-Malaysian-State" = none ∧
    headerGet (_get_default_headers config) "X-Halal-Requirements" = none := by
  have hc : config.cultural_context = some CulturalContext.default := by
    unfold MediMateMalaysia_init at h
    split at h
    · exact absurd h (by simp)
    · injection h with h'
      rw [← h']
      rfl
  unfold _get_default_headers
  rw [hc]
  simp [headerGet, CulturalContext.default, SupportedLanguage.code]

/-- Claim C10 witness: the default-context theorem applied to the
construction with the valid key `mk_live_abcdef` and no context. -/
theorem C10_default_context_headers_witness :
    headerGet (_get_default_headers c10config) "X-Preferred-Language" = some "en" ∧
    headerGet (_get_default_headers c10config) "X-Prayer-Time-Aware" = some "true" ∧
    headerGet (_get_default_headers c10config) "X-Malaysian-State" = none ∧
    headerGet (_get_default_headers c10config) "X-Halal-Requirements" = none :=
  C10_default_context_headers "mk_live_abcdef" "https://api.medimate.my/v1" 30 3 false
    c10config rfl

end MediMateSDK
